import Mathlib

/-!
Verification of the CYAN-FLAME control-plane server core: a shallow embedding
of the certificate authority (issuance, renewal, revocation, status, OCSP/DER
encoding), the tiered authentication gateway (registration, validation, rate
limiting, tier gating), and the rotate-and-broadcast artifact registry, with
theorems settling the behavioural claims about them.

External collaborators (the sha2/md5 crates, chrono time formatting) are
passed in as explicit function parameters; machine timestamps are modelled as
integers (milliseconds since the epoch, matching timestamp_millis), and the
HashMap stores as association lists whose insert shadows earlier bindings.
-/

deriving instance DecidableEq for Except

namespace CyanFlame

/-! ## DER / OCSP byte assembly (grpc/certificate_service.rs) -/

/-- A byte string: each entry is one octet value. -/
abbrev Bytes := List Nat

def OCSP_RESPONSE_STATUS_SUCCESSFUL : Nat := 0
def OCSP_CERT_STATUS_GOOD : Nat := 0
def OCSP_CERT_STATUS_REVOKED : Nat := 1
def OCSP_CERT_STATUS_UNKNOWN : Nat := 2

/-- Embeds `encode_length`: DER short form below 128, 0x81 / 0x82 long forms above;
the casts to u8 in the source truncate mod 256. -/
def encodeLength (length : Nat) : Bytes :=
  if length < 128 then [length]
  else if length < 256 then [0x81, length]
  else [0x82, (length >>> 8) % 256, length % 256]

/-- Bytes of an ASCII string (`as_bytes` on the certificate-service strings,
which are all ASCII). -/
def asciiBytes (s : String) : Bytes := s.data.map Char.toNat

/-- Embeds `to_be_bytes` of an i64: eight big-endian octets of the value mod 2^64. -/
def i64BeBytes (t : Int) : Bytes :=
  (List.range 8).map fun i => ((t % (2 ^ 64)).toNat >>> (8 * (7 - i))) % 256

/-- The crypto and time-formatting collaborators of the OCSP builder:
`sha256` is the sha2 crate digest (32 octets), `egt` is
`encode_generalized_time` (chrono formatting of a millisecond timestamp as
the ASCII bytes of "YYYYMMDDHHMMSSZ"). -/
structure OcspEnv where
  sha256 : Bytes → Bytes
  egt : Int → Bytes

def responderNameBytes : Bytes := asciiBytes "CYAN_FLAME_OCSP_RESPONDER"
def caNameBytes : Bytes := asciiBytes "CYAN_FLAME_CA"
def caKeyBytes : Bytes := asciiBytes "CYAN_FLAME_CA_KEY"

/-- Embeds `build_cert_id`: AlgorithmIdentifier, issuerNameHash, issuerKeyHash and
serialNumber (first 16 bytes of the serial string), wrapped in a SEQUENCE. -/
def buildCertId (env : OcspEnv) (serialNumber : String) : Bytes :=
  let sha256Oid : Bytes := [0x60, 0x86, 0x48, 0x01, 0x65, 0x03, 0x04, 0x02, 0x01]
  let issuerHash := env.sha256 caNameBytes
  let keyHash := env.sha256 caKeyBytes
  let serialBytes := (asciiBytes serialNumber).take 16
  let bytes :=
    [0x30, (sha256Oid.length + 4) % 256, 0x06, sha256Oid.length % 256] ++ sha256Oid
      ++ [0x05, 0x00]
      ++ [0x04, issuerHash.length % 256] ++ issuerHash
      ++ [0x04, keyHash.length % 256] ++ keyHash
      ++ [0x02, serialBytes.length % 256] ++ serialBytes
  [0x30] ++ encodeLength bytes.length ++ bytes

/-- The certStatus CHOICE of `build_single_response`: good is [0] IMPLICIT
NULL, revoked is [1] EXPLICIT with a hardcoded length byte 0x0F followed by a
GeneralizedTime element, anything else is [2] IMPLICIT NULL. -/
def certStatusChoice (env : OcspEnv) (certStatus : Nat) (thisUpdateMs : Int) : Bytes :=
  if certStatus = OCSP_CERT_STATUS_GOOD then [0x80, 0x00]
  else if certStatus = OCSP_CERT_STATUS_REVOKED then
    [0xA1, 0x0F] ++ ([0x18, (env.egt thisUpdateMs).length % 256] ++ env.egt thisUpdateMs)
  else [0x82, 0x00]

/-- The thisUpdate and nextUpdate trailer of `build_single_response`. -/
def singleResponseTail (env : OcspEnv) (thisUpdateMs nextUpdateMs : Int) : Bytes :=
  ([0x18, (env.egt thisUpdateMs).length % 256] ++ env.egt thisUpdateMs)
    ++ ([0xA0, ((env.egt nextUpdateMs).length + 2) % 256,
         0x18, (env.egt nextUpdateMs).length % 256] ++ env.egt nextUpdateMs)

/-- Embeds `build_single_response`: certID, certStatus, thisUpdate, nextUpdate,
wrapped in a SEQUENCE. -/
def buildSingleResponse (env : OcspEnv) (serialNumber : String) (certStatus : Nat)
    (thisUpdateMs nextUpdateMs : Int) : Bytes :=
  let bytes := buildCertId env serialNumber
    ++ certStatusChoice env certStatus thisUpdateMs
    ++ singleResponseTail env thisUpdateMs nextUpdateMs
  [0x30] ++ encodeLength bytes.length ++ bytes

/-- Embeds `build_tbs_response_data`: responderID (byKey), producedAt, and the
responses SEQUENCE holding one SingleResponse, wrapped in a SEQUENCE. -/
def buildTbsResponseData (env : OcspEnv) (serialNumber : String) (certStatus : Nat)
    (thisUpdateMs nextUpdateMs : Int) : Bytes :=
  let responderHash := env.sha256 responderNameBytes
  let producedAt := env.egt thisUpdateMs
  let singleResponse := buildSingleResponse env serialNumber certStatus thisUpdateMs nextUpdateMs
  let bytes :=
    [0xA2, (responderHash.length + 2) % 256, 0x04, responderHash.length % 256] ++ responderHash
      ++ [0x18, producedAt.length % 256] ++ producedAt
      ++ [0x30] ++ encodeLength singleResponse.length ++ singleResponse
  [0x30] ++ encodeLength bytes.length ++ bytes

/-- Embeds `build_basic_ocsp_response`: tbsResponseData, signatureAlgorithm
(SHA256withRSA), and a placeholder BIT STRING signature, wrapped in a
SEQUENCE. -/
def buildBasicOcspResponse (env : OcspEnv) (serialNumber : String) (certStatus : Nat)
    (thisUpdateMs nextUpdateMs : Int) : Bytes :=
  let tbsData := buildTbsResponseData env serialNumber certStatus thisUpdateMs nextUpdateMs
  let sigAlgOid : Bytes := [0x2A, 0x86, 0x48, 0x86, 0xF7, 0x0D, 0x01, 0x01, 0x0B]
  let sigHash := env.sha256 (asciiBytes serialNumber ++ i64BeBytes thisUpdateMs)
  let bytes := tbsData
    ++ [0x30, (sigAlgOid.length + 4) % 256, 0x06, sigAlgOid.length % 256] ++ sigAlgOid
    ++ [0x05, 0x00]
    ++ [0x03, (sigHash.length + 1) % 256, 0x00] ++ sigHash
  [0x30] ++ encodeLength bytes.length ++ bytes

/-- Embeds `build_response_bytes`: the id-pkix-ocsp-basic OID and the OCTET STRING
holding the BasicOCSPResponse, wrapped in a SEQUENCE. -/
def buildResponseBytes (env : OcspEnv) (serialNumber : String) (certStatus : Nat)
    (thisUpdateMs nextUpdateMs : Int) : Bytes :=
  let oidBytes : Bytes := [0x2B, 0x06, 0x01, 0x05, 0x05, 0x07, 0x30, 0x01, 0x01]
  let basicResponse := buildBasicOcspResponse env serialNumber certStatus thisUpdateMs nextUpdateMs
  let bytes := [0x06, oidBytes.length % 256] ++ oidBytes
    ++ [0x04] ++ encodeLength basicResponse.length ++ basicResponse
  [0x30] ++ encodeLength bytes.length ++ bytes

/-- Embeds `build_ocsp_response_der`: responseStatus ENUMERATED and the
context-specific [0] ResponseBytes, wrapped in the outermost SEQUENCE. -/
def buildOcspResponseDer (env : OcspEnv) (serialNumber : String) (certStatus : Nat)
    (thisUpdateMs nextUpdateMs : Int) : Bytes :=
  let responseBytes := buildResponseBytes env serialNumber certStatus thisUpdateMs nextUpdateMs
  let response := [0x0A, 0x01, OCSP_RESPONSE_STATUS_SUCCESSFUL]
    ++ [0xA0] ++ encodeLength responseBytes.length ++ responseBytes
  [0x30] ++ encodeLength response.length ++ response

/-! ## Certificate store (grpc/certificate.rs) -/

/-- Association-list lookup, standing for `HashMap::get`: the first binding
of the key wins. -/
def alLookup {β : Type} : List (String × β) → String → Option β
  | [], _ => none
  | (k, v) :: rest, key => if k = key then some v else alLookup rest key

/-- Association-list insert, standing for `HashMap::insert` (and for mutation
through `get_mut`): the new binding shadows any earlier one. -/
def alInsert {β : Type} (l : List (String × β)) (k : String) (v : β) : List (String × β) :=
  (k, v) :: l

/-- X.509 CRL revocation reasons. -/
inductive RevocationReason where
  | unspecified
  | keyCompromise
  | caCompromise
  | affiliationChanged
  | superseded
  | cessationOfOperation
  | certificateHold
  | privilegeWithdrawn
deriving DecidableEq, Repr

/-- Embeds `RevocationReason::from_proto`. -/
def RevocationReason.fromProto (value : Int) : RevocationReason :=
  if value = 1 then .keyCompromise
  else if value = 2 then .caCompromise
  else if value = 3 then .affiliationChanged
  else if value = 4 then .superseded
  else if value = 5 then .cessationOfOperation
  else if value = 6 then .certificateHold
  else if value = 7 then .privilegeWithdrawn
  else .unspecified

/-- Embeds `RevocationReason::to_proto` (the enum discriminant). -/
def RevocationReason.toProto : RevocationReason → Int
  | .unspecified => 0
  | .keyCompromise => 1
  | .caCompromise => 2
  | .affiliationChanged => 3
  | .superseded => 4
  | .cessationOfOperation => 5
  | .certificateHold => 6
  | .privilegeWithdrawn => 7

inductive CertificateStatus where
  | valid
  | expired
  | revoked
  | unknown
deriving DecidableEq, Repr

/-- An entry of the certificate store. Timestamps are milliseconds since the
epoch; the bound GPU type is kept as an abstract numeric code. -/
structure CertificateEntry where
  serialNumber : String
  fingerprintSha256 : String
  commonName : String
  orgId : String
  boundApiKeyHash : String
  boundGpuType : Option Nat
  certificatePem : String
  certificateChainPem : String
  issuedAt : Int
  expiresAt : Int
  status : CertificateStatus
  revokedAt : Option Int
  revocationReason : Option RevocationReason
deriving DecidableEq, Repr

/-- Embeds `CertificateEntry::current_status`: revocation wins, then expiry
(`Utc::now() >= expires_at`), else valid. -/
def CertificateEntry.currentStatus (c : CertificateEntry) (now : Int) : CertificateStatus :=
  if c.status = .revoked then .revoked
  else if c.expiresAt ≤ now then .expired
  else .valid

structure CrlEntry where
  serialNumber : String
  revokedAt : Int
  reason : RevocationReason
deriving DecidableEq, Repr

/-- The `CertificateManager` state: certificates keyed by serial, the
fingerprint-to-serial index, the CRL and its last-update time. -/
structure CertStore where
  certificates : List (String × CertificateEntry)
  fingerprintIndex : List (String × String)
  crl : List CrlEntry
  crlLastUpdate : Int
deriving DecidableEq, Repr

/-- One day of `chrono::Duration` in milliseconds. -/
def dayMs : Int := 86400000

/-- Embeds `issue_certificate`. The uuid serial, the rcgen-produced certificate PEM
and DER, and the CA PEM come from external collaborators and are passed in;
`H` is the sha2-and-hex fingerprint function (`calculate_fingerprint`). -/
def issueCertificate (H : Bytes → String) (store : CertStore)
    (orgId commonName apiKeyHash : String) (gpuType : Option Nat) (validityDays : Nat)
    (serial : String) (now : Int) (certPem : String) (certDer : Bytes)
    (caCertPem : String) : CertificateEntry × CertStore :=
  let expiresAt := now + validityDays * dayMs
  let fingerprint := H certDer
  let chainPem := certPem ++ "\n" ++ caCertPem
  let entry : CertificateEntry :=
    { serialNumber := serial
      fingerprintSha256 := fingerprint
      commonName := commonName
      orgId := orgId
      boundApiKeyHash := apiKeyHash
      boundGpuType := gpuType
      certificatePem := certPem
      certificateChainPem := chainPem
      issuedAt := now
      expiresAt := expiresAt
      status := .valid
      revokedAt := none
      revocationReason := none }
  (entry,
    { store with
        certificates := alInsert store.certificates serial entry
        fingerprintIndex := alInsert store.fingerprintIndex fingerprint serial })

/-- Embeds `revoke_certificate`: an already revoked certificate is an error that
leaves the store untouched; otherwise the entry is marked revoked, a CRL
record is appended and the CRL timestamp advanced. -/
def revokeCertificate (store : CertStore) (serialNumber : String)
    (reason : RevocationReason) (now : Int) : Except String Unit × CertStore :=
  match alLookup store.certificates serialNumber with
  | some cert =>
    if cert.status = .revoked then
      (.error "Certificate is already revoked", store)
    else
      (.ok (),
        { store with
            certificates := alInsert store.certificates serialNumber
              { cert with status := .revoked, revokedAt := some now,
                          revocationReason := some reason }
            crl := store.crl ++ [⟨serialNumber, now, reason⟩]
            crlLastUpdate := now })
  | none => (.error "Certificate not found", store)

/-- Embeds `get_certificate`: lookup by serial number only. -/
def getCertificate (store : CertStore) (serialNumber : String) : Option CertificateEntry :=
  alLookup store.certificates serialNumber

/-- Embeds `get_certificate_by_fingerprint`: through the fingerprint index, then by
serial. -/
def getCertificateByFingerprint (store : CertStore) (fingerprint : String) :
    Option CertificateEntry :=
  match alLookup store.fingerprintIndex fingerprint with
  | some serial => getCertificate store serial
  | none => none

/-- Embeds `check_status`. -/
def checkStatus (store : CertStore) (serialNumber : String) (now : Int) : CertificateStatus :=
  match getCertificate store serialNumber with
  | some cert => cert.currentStatus now
  | none => .unknown

/-- Embeds `get_crl`: the CRL entries, this-update, and next-update 24h later. -/
def getCrl (store : CertStore) : List CrlEntry × Int × Int :=
  (store.crl, store.crlLastUpdate, store.crlLastUpdate + dayMs)

/-! ## Certificate gRPC service (grpc/certificate_service.rs) -/

structure CertificateStatusResponse where
  found : Bool
  serialNumber : String
  status : String
  issuedAtMs : Int
  expiresAtMs : Int
  revokedAtMs : Int
  revocationReason : Int
deriving DecidableEq, Repr

/-- Embeds `get_certificate_status`: picks the serial field when nonempty, else the
fingerprint field, and looks that identifier up by serial. -/
def getCertificateStatus (store : CertStore) (serialNumber fingerprintSha256 : String)
    (now : Int) : CertificateStatusResponse :=
  let serial := if serialNumber ≠ "" then serialNumber else fingerprintSha256
  match getCertificate store serial with
  | some entry =>
    { found := true
      serialNumber := entry.serialNumber
      status := if entry.revokedAt.isSome then "revoked"
                else if entry.expiresAt < now then "expired"
                else "valid"
      issuedAtMs := entry.issuedAt
      expiresAtMs := entry.expiresAt
      revokedAtMs := entry.revokedAt.getD 0
      revocationReason := (entry.revocationReason.map RevocationReason.toProto).getD 0 }
  | none =>
    { found := false
      serialNumber := serial
      status := "unknown"
      issuedAtMs := 0
      expiresAtMs := 0
      revokedAtMs := 0
      revocationReason := 0 }

structure CertificateResponse where
  success : Bool
  errorMessage : String
  certificatePem : String
  certificateChainPem : String
  privateKeyPem : String
  serialNumber : String
  fingerprintSha256 : String
  issuedAtMs : Int
  expiresAtMs : Int
  boundApiKeyHash : String
  boundGpuType : Int
deriving DecidableEq, Repr

/-- Embeds `CertificateResponse::default()`. -/
def CertificateResponse.empty : CertificateResponse :=
  { success := false, errorMessage := "", certificatePem := "",
    certificateChainPem := "", privateKeyPem := "", serialNumber := "",
    fingerprintSha256 := "", issuedAtMs := 0, expiresAtMs := 0,
    boundApiKeyHash := "", boundGpuType := 0 }

/-- A failed `CertificateResponse` built with `..Default::default()`. -/
def failedCertificateResponse (msg : String) : CertificateResponse :=
  { CertificateResponse.empty with success := false, errorMessage := msg }

/-- Embeds `renew_certificate`: hashes the supplied API key with md5, hashes the
supplied old-certificate PEM text with sha256 (`H` composed with the PEM
bytes) as the lookup fingerprint, resolves through the fingerprint index, and
on success issues a new certificate carrying over the original org, common
name and GPU binding. The freshly generated serial, PEM, DER and timestamp of
the new issuance are passed in as for `issueCertificate`. -/
def renewCertificate (H : Bytes → String) (md5hex : String → String) (store : CertStore)
    (oldCertificatePem apiKey : String) (validityDays : Nat)
    (serial : String) (now : Int) (certPem : String) (certDer : Bytes)
    (caCertPem : String) : CertificateResponse × CertStore :=
  let apiKeyHash := md5hex apiKey
  let oldCertFingerprint := if oldCertificatePem ≠ "" then H (asciiBytes oldCertificatePem) else ""
  if oldCertFingerprint ≠ "" then
    match getCertificateByFingerprint store oldCertFingerprint with
    | some oldCert =>
      if oldCert.boundApiKeyHash ≠ apiKeyHash then
        (failedCertificateResponse "API key does not match the original certificate", store)
      else if oldCert.revokedAt.isSome then
        (failedCertificateResponse "Cannot renew a revoked certificate", store)
      else
        let issued := issueCertificate H store oldCert.orgId oldCert.commonName apiKeyHash
          oldCert.boundGpuType validityDays serial now certPem certDer caCertPem
        ({ success := true
           errorMessage := ""
           certificatePem := issued.1.certificatePem
           certificateChainPem := issued.1.certificateChainPem
           privateKeyPem := ""
           serialNumber := issued.1.serialNumber
           fingerprintSha256 := issued.1.fingerprintSha256
           issuedAtMs := issued.1.issuedAt
           expiresAtMs := issued.1.expiresAt
           boundApiKeyHash := apiKeyHash
           boundGpuType := (issued.1.boundGpuType.map Int.ofNat).getD 0 }, issued.2)
    | none => (failedCertificateResponse "Original certificate not found", store)
  else
    let issued := issueCertificate H store "renewed-org" "renewed-client" apiKeyHash
      none validityDays serial now certPem certDer caCertPem
    ({ success := true
       errorMessage := ""
       certificatePem := issued.1.certificatePem
       certificateChainPem := issued.1.certificateChainPem
       privateKeyPem := ""
       serialNumber := issued.1.serialNumber
       fingerprintSha256 := issued.1.fingerprintSha256
       issuedAtMs := issued.1.issuedAt
       expiresAtMs := issued.1.expiresAt
       boundApiKeyHash := apiKeyHash
       boundGpuType := 0 }, issued.2)

/-- The status selection of `check_certificate_ocsp`: the status string and
the numeric certStatus handed to the DER builder. Expiry is computed as
`expires_at < Utc::now()` and an expired certificate is mapped to the
revoked certStatus code. -/
def ocspStatus (store : CertStore) (serialNumber : String) (now : Int) : String × Nat :=
  if serialNumber ≠ "" then
    match getCertificate store serialNumber with
    | some entry =>
      if entry.revokedAt.isSome then ("revoked", OCSP_CERT_STATUS_REVOKED)
      else if entry.expiresAt < now then ("expired", OCSP_CERT_STATUS_REVOKED)
      else ("good", OCSP_CERT_STATUS_GOOD)
    | none => ("unknown", OCSP_CERT_STATUS_UNKNOWN)
  else ("unknown", OCSP_CERT_STATUS_UNKNOWN)

structure OcspServiceResponse where
  ocspResponseDer : Bytes
  status : String
  thisUpdateMs : Int
  nextUpdateMs : Int
deriving DecidableEq, Repr

/-- Embeds `check_certificate_ocsp`: status selection, then the DER response with
this-update now and next-update 24h later. -/
def checkCertificateOcsp (env : OcspEnv) (store : CertStore) (serialNumber : String)
    (now : Int) : OcspServiceResponse :=
  let statusPair := ocspStatus store serialNumber now
  { ocspResponseDer := buildOcspResponseDer env serialNumber statusPair.2 now (now + dayMs)
    status := statusPair.1
    thisUpdateMs := now
    nextUpdateMs := now + dayMs }

/-! ## Authentication gateway (grpc/auth.rs) -/

inductive StatusCode where
  | unauthenticated
  | permissionDenied
  | resourceExhausted
deriving DecidableEq, Repr

/-- A tonic `Status`: its code and message. -/
structure GrpcStatus where
  code : StatusCode
  message : String
deriving DecidableEq, Repr

structure TierConfig where
  name : String
  amplificationFactor : Nat
  maxAllocationTb : Nat
  rateLimit : Nat
  maxConcurrentAllocations : Nat
  priority : Nat
deriving DecidableEq, Repr

def TierConfig.free : TierConfig :=
  { name := "free", amplificationFactor := 100, maxAllocationTb := 2,
    rateLimit := 100, maxConcurrentAllocations := 1, priority := 1 }

def TierConfig.starter : TierConfig :=
  { name := "starter", amplificationFactor := 1000, maxAllocationTb := 24,
    rateLimit := 1000, maxConcurrentAllocations := 5, priority := 2 }

def TierConfig.pro : TierConfig :=
  { name := "pro", amplificationFactor := 10000, maxAllocationTb := 240,
    rateLimit := 10000, maxConcurrentAllocations := 20, priority := 3 }

def TierConfig.enterprise : TierConfig :=
  { name := "enterprise", amplificationFactor := 24500, maxAllocationTb := 574,
    rateLimit := 0, maxConcurrentAllocations := 100, priority := 4 }

/-- ASCII lowercasing, the effect of `to_lowercase` on the tier names in
play. -/
def rustToLowercase (s : String) : String := ⟨s.data.map Char.toLower⟩

/-- ASCII uppercasing, the effect of `to_uppercase` on the tier names in
play. -/
def rustToUppercase (s : String) : String := ⟨s.data.map Char.toUpper⟩

/-- Embeds `TierConfig::from_name`: unknown names default to the free tier. -/
def TierConfig.fromName (name : String) : TierConfig :=
  let lowered := rustToLowercase name
  if lowered = "free" then TierConfig.free
  else if lowered = "starter" then TierConfig.starter
  else if lowered = "pro" then TierConfig.pro
  else if lowered = "enterprise" then TierConfig.enterprise
  else TierConfig.free

structure ApiKeyEntry where
  keyHash : String
  tier : String
  tierConfig : TierConfig
  orgId : String
  expiresAt : Option Int
  rateLimit : Nat
  requestCount : Nat
  lastRequest : Int
  enabled : Bool
  currentAllocations : Nat
  allocatedMemoryBytes : Nat
deriving DecidableEq, Repr

/-- The `AuthManager` state: the hashed-key registry and the global
authentication switch. -/
structure AuthState where
  apiKeys : List (String × ApiKeyEntry)
  authEnabled : Bool
deriving DecidableEq, Repr

/-- Embeds `register_key`: stores a fresh entry under the hashed key with the tier
configuration, zeroed counters and the current time as window start; the
hash function (`hash_key`, sha256-hex) is passed in. -/
def registerKey (hashKey : String → String) (st : AuthState)
    (apiKey tier orgId : String) (now : Int) : AuthState :=
  let keyHash := hashKey apiKey
  let tierConfig := TierConfig.fromName tier
  let entry : ApiKeyEntry :=
    { keyHash := keyHash
      tier := tier
      tierConfig := tierConfig
      orgId := orgId
      expiresAt := none
      rateLimit := tierConfig.rateLimit
      requestCount := 0
      lastRequest := now
      enabled := true
      currentAllocations := 0
      allocatedMemoryBytes := 0 }
  { st with apiKeys := alInsert st.apiKeys keyHash entry }

/-- The synthesized maximal-privilege entry `validate_key` returns while
authentication is globally disabled. -/
def disabledAuthEntry (now : Int) : ApiKeyEntry :=
  { keyHash := "disabled", tier := "enterprise", tierConfig := TierConfig.enterprise,
    orgId := "default", expiresAt := none, rateLimit := 0, requestCount := 0,
    lastRequest := now, enabled := true, currentAllocations := 0,
    allocatedMemoryBytes := 0 }

/-- Embeds `chrono::Duration::num_seconds` of a millisecond difference: whole
seconds, truncated toward zero. -/
def numSeconds (diffMs : Int) : Int := diffMs.tdiv 1000

/-- The rate-limit rejection message. -/
def rateLimitMessage (limit : Nat) : String :=
  "Rate limit exceeded (" ++ toString limit
    ++ "/min). Upgrade to higher tier for more requests."

/-- Embeds `validate_key`: the disabled-auth bypass, then lookup by hash, the
enabled and expiry checks, the 60-second window reset, the rate-limit check
(0 means unlimited) and the counter increment. The mutated entry is written
back through the lock; a rejected request mutates nothing beyond the window
reset (which can only fire on a call that then passes the limit check). -/
def validateKey (hashKey : String → String) (st : AuthState) (apiKey : String)
    (now : Int) : Except GrpcStatus ApiKeyEntry × AuthState :=
  if st.authEnabled = false then
    (.ok (disabledAuthEntry now), st)
  else
    let keyHash := hashKey apiKey
    match alLookup st.apiKeys keyHash with
    | none =>
      (.error ⟨.unauthenticated,
        "Invalid API key. Please check your API key or contact support."⟩, st)
    | some entry =>
      if entry.enabled = false then
        (.error ⟨.permissionDenied, "API key is disabled"⟩, st)
      else if (match entry.expiresAt with
               | some expires => decide (expires < now)
               | none => false) then
        (.error ⟨.permissionDenied, "API key has expired"⟩, st)
      else
        let entry1 := if 60 ≤ numSeconds (now - entry.lastRequest) then
            { entry with requestCount := 0, lastRequest := now }
          else entry
        if 0 < entry1.rateLimit ∧ entry1.rateLimit ≤ entry1.requestCount then
          (.error ⟨.resourceExhausted, rateLimitMessage entry1.rateLimit⟩,
            { st with apiKeys := alInsert st.apiKeys keyHash entry1 })
        else
          let entry2 := { entry1 with requestCount := entry1.requestCount + 1 }
          (.ok entry2, { st with apiKeys := alInsert st.apiKeys keyHash entry2 })

/-- Whether a validation outcome is a success. -/
def validateOk {α : Type} : Except GrpcStatus α → Bool
  | .ok _ => true
  | .error _ => false

/-- A sequence of `validate_key` calls against the same key at the given
timestamps, threading the registry state; yields the per-call outcomes and
the final state. -/
def validateSeq (hashKey : String → String) (st : AuthState) (apiKey : String) :
    List Int → List Bool × AuthState
  | [] => ([], st)
  | t :: ts =>
    let step := validateKey hashKey st apiKey t
    let rest := validateSeq hashKey step.2 apiKey ts
    (validateOk step.1 :: rest.1, rest.2)

/-! ## Calibration service tier gating (grpc/calibration.rs) -/

/-- Rust `str::split` on a single separator character: splitting the empty
string yields one empty piece, and separators at the ends yield empty
pieces. -/
def splitChar (sep : Char) : List Char → List (List Char)
  | [] => [[]]
  | c :: cs =>
    let rest := splitChar sep cs
    if c = sep then [] :: rest
    else
      match rest with
      | [] => [[c]]
      | piece :: pieces => (c :: piece) :: pieces

/-- The pieces `api_key.split(sep).collect::<Vec<_>>()` yields, as strings. -/
def rustSplit (s : String) (sep : Char) : List String :=
  (splitChar sep s.data).map fun l => ⟨l⟩

/-- The tier hierarchy of `validate_api_key_and_tier`: ENTERPRISE >
PROFESSIONAL > STANDARD > BASIC, anything else level 0. -/
def tierLevel (t : String) : Nat :=
  if t = "ENTERPRISE" then 4
  else if t = "PROFESSIONAL" then 3
  else if t = "STANDARD" then 2
  else if t = "BASIC" then 1
  else 0

/-- An ASCII apostrophe, for building the rejection message. -/
def apos : String := ⟨[Char.ofNat 39]⟩

/-- Embeds `validate_api_key_and_tier`: requires the CYAN-FLAME- prefix, parses the
tier out of the third dash-separated component of the client-supplied key
string, and compares its level against the level of the requested tier. -/
def validateApiKeyAndTier (apiKey tier : String) : Except GrpcStatus Unit :=
  if apiKey = "" then .error ⟨.unauthenticated, "API key is required"⟩
  else if ("CYAN-FLAME-".data).isPrefixOf apiKey.data = false then
    .error ⟨.unauthenticated, "Invalid API key format"⟩
  else
    let keyParts := rustSplit apiKey (Char.ofNat 45)
    if keyParts.length < 4 then .error ⟨.unauthenticated, "Invalid API key format"⟩
    else
      let keyTier := rustToUppercase (keyParts.getD 2 "")
      let requestedTier := rustToUppercase tier
      let keyLevel := tierLevel keyTier
      let requestedLevel := tierLevel requestedTier
      if keyLevel = 0 then
        .error ⟨.unauthenticated, "Invalid subscription tier in API key"⟩
      else if keyLevel < requestedLevel then
        .error ⟨.permissionDenied,
          "API key tier " ++ apos ++ keyTier ++ apos ++ " does not have access to "
            ++ apos ++ requestedTier ++ apos ++ " features"⟩
      else .ok ()

/-! ## Artifact rotation registry (grpc/calibration.rs, compute_calibration.rs) -/

/-- The version-bearing metadata of a calibration matrix; the float payload
bytes and their hash are produced by the generator and carried unchanged. -/
structure CalibrationMatrixMeta where
  version : Nat
  generatedAtMs : Int
  expiresAtMs : Int
  matrixHash : String
deriving DecidableEq, Repr

/-- A rotate-and-broadcast registry instance: the version counter, the
current artifact, and the ordered log of versions published on the broadcast
channel (a subscriber joining after k publications receives only entries
after index k — the tokio broadcast channel never replays history). -/
structure CalibrationState where
  version : Nat
  currentMatrix : CalibrationMatrixMeta
  broadcastLog : List Nat
deriving DecidableEq, Repr

/-- The state `CalibrationServiceImpl::new` builds: version 1, the initial
generated matrix, nothing broadcast yet. `gen` is
`generate_calibration_matrix` (its payload depends on wall-clock time and
floating-point arithmetic, so it is a parameter). -/
def initialCalibrationState (gen : Nat → CalibrationMatrixMeta) : CalibrationState :=
  { version := 1, currentMatrix := gen 1, broadcastLog := [] }

/-- One tick of `start_rotation_task`: increment the version, generate the
matrix for the new version, swap it in, and publish it. -/
def rotateStep (gen : Nat → CalibrationMatrixMeta) (st : CalibrationState) :
    CalibrationState :=
  let newVersion := st.version + 1
  { version := newVersion
    currentMatrix := gen newVersion
    broadcastLog := st.broadcastLog ++ [newVersion] }

/-- Embeds `get_calibration_matrix`: clones and returns the current matrix; the
state is untouched and the request time is never consulted. -/
def getCalibrationMatrix (st : CalibrationState) : CalibrationMatrixMeta × CalibrationState :=
  (st.currentMatrix, st)

/-- What a subscriber who subscribed after `k` publications receives from
the broadcast channel over the run: the log entries after index `k`. -/
def subscriberReceives (st : CalibrationState) (k : Nat) : List Nat :=
  st.broadcastLog.drop k

/-- Embeds `validate_matrix_version`. -/
def validateMatrixVersion (st : CalibrationState) (currentVersion : Nat)
    (matrixHash : String) : Bool × Bool × Nat :=
  (decide (currentVersion = st.version ∧ matrixHash = st.currentMatrix.matrixHash),
   decide (currentVersion < st.version),
   st.version)

/-! ## Concrete fixtures for witness instantiations -/

/-- A fixed 32-octet digest standing in for sha2 at concrete inputs. -/
def sha256Fixed : Bytes → Bytes := fun _ => List.replicate 32 0

/-- A fixed GeneralizedTime encoding standing in for chrono at concrete
inputs: the 15 ASCII bytes of "20260101000000Z". -/
def egtFixed : Int → Bytes := fun _ => asciiBytes "20260101000000Z"

def ocspEnvFixed : OcspEnv := ⟨sha256Fixed, egtFixed⟩

/-- A sample valid certificate entry for concrete instantiations. -/
def sampleEntry : CertificateEntry :=
  { serialNumber := "S1", fingerprintSha256 := "F1", commonName := "agent-1",
    orgId := "acme", boundApiKeyHash := "h1", boundGpuType := none,
    certificatePem := "PEM1", certificateChainPem := "PEM1-CA",
    issuedAt := 0, expiresAt := 1000, status := .valid,
    revokedAt := none, revocationReason := none }

/-- A sample store holding `sampleEntry`. -/
def sampleStore : CertStore :=
  { certificates := [("S1", sampleEntry)], fingerprintIndex := [("F1", "S1")],
    crl := [], crlLastUpdate := 0 }

/-- A sample expired (but unrevoked) certificate entry and its store. -/
def expiredEntry : CertificateEntry :=
  { sampleEntry with serialNumber := "S2", fingerprintSha256 := "F2", expiresAt := 1000 }

def expiredStore : CertStore :=
  { certificates := [("S2", expiredEntry)], fingerprintIndex := [("F2", "S2")],
    crl := [], crlLastUpdate := 0 }

/-- A registered entry at a tier with rate limit 2, for concrete runs. -/
def entryW : ApiKeyEntry :=
  { keyHash := "k", tier := "pro", tierConfig := TierConfig.pro, orgId := "org",
    expiresAt := none, rateLimit := 2, requestCount := 0, lastRequest := 0,
    enabled := true, currentAllocations := 0, allocatedMemoryBytes := 0 }

def authStateW : AuthState := { apiKeys := [("k", entryW)], authEnabled := true }

/-- A concrete generator for witness runs. -/
def genW : Nat → CalibrationMatrixMeta :=
  fun v => { version := v, generatedAtMs := 0, expiresAtMs := 60000, matrixHash := "h" }

/-- A state whose current artifact is already past its expiry. -/
def expiredMatrixW : CalibrationMatrixMeta :=
  { version := 7, generatedAtMs := 0, expiresAtMs := 1000, matrixHash := "h7" }

def calStateW : CalibrationState :=
  { version := 7, currentMatrix := expiredMatrixW, broadcastLog := [] }

/-! ## Association-list lemmas -/

theorem alLookup_insert_self {β : Type} (l : List (String × β)) (k : String) (v : β) :
    alLookup (alInsert l k v) k = some v := by
  simp [alInsert, alLookup]

theorem alLookup_insert_of_ne {β : Type} (l : List (String × β)) (k key : String) (v : β)
    (h : k ≠ key) : alLookup (alInsert l k v) key = alLookup l key := by
  simp [alInsert, alLookup, h]

/-! ## Shape of the SingleResponse encoding -/

/-- The output of `build_single_response` is the SEQUENCE header followed by the certID,
the certStatus choice bytes, and the thisUpdate/nextUpdate trailer. -/
theorem buildSingleResponse_eq (env : OcspEnv) (serialNumber : String) (certStatus : Nat)
    (thisUpdateMs nextUpdateMs : Int) :
    buildSingleResponse env serialNumber certStatus thisUpdateMs nextUpdateMs =
      ([0x30]
        ++ encodeLength (buildCertId env serialNumber
            ++ certStatusChoice env certStatus thisUpdateMs
            ++ singleResponseTail env thisUpdateMs nextUpdateMs).length
        ++ buildCertId env serialNumber)
      ++ certStatusChoice env certStatus thisUpdateMs
      ++ singleResponseTail env thisUpdateMs nextUpdateMs := by
  simp [buildSingleResponse, List.append_assoc]

/-- C1: the claim that every DER length field equals the byte length of the
content it prefixes fails in the revoked branch of `build_single_response`:
the [1] EXPLICIT certStatus element carries the hardcoded length byte 0x0F
(15), but the content that follows it — the GeneralizedTime element 0x18,
length byte, and the 15 time bytes — is 17 bytes long. -/
theorem ocsp_revoked_certstatus_length_mismatch (env : OcspEnv) (serialNumber : String)
    (thisUpdateMs nextUpdateMs : Int)
    (hlen : (env.egt thisUpdateMs).length = 15) :
    (∃ pre post,
      buildSingleResponse env serialNumber OCSP_CERT_STATUS_REVOKED thisUpdateMs nextUpdateMs
        = pre ++ certStatusChoice env OCSP_CERT_STATUS_REVOKED thisUpdateMs ++ post) ∧
    certStatusChoice env OCSP_CERT_STATUS_REVOKED thisUpdateMs
      = [0xA1, 0x0F] ++ ([0x18, 15] ++ env.egt thisUpdateMs) ∧
    ([0x18, 15] ++ env.egt thisUpdateMs).length = 17 ∧
    ([0x18, 15] ++ env.egt thisUpdateMs).length ≠ 0x0F := by
  refine ⟨⟨_, _, buildSingleResponse_eq env serialNumber _ thisUpdateMs nextUpdateMs⟩, ?_, ?_, ?_⟩
  · simp [certStatusChoice, OCSP_CERT_STATUS_REVOKED, OCSP_CERT_STATUS_GOOD, hlen]
  · simp [hlen]
  · simp [hlen]

theorem ocsp_revoked_certstatus_length_mismatch_witness :
    (∃ pre post,
      buildSingleResponse ocspEnvFixed "AB12" OCSP_CERT_STATUS_REVOKED 0 0
        = pre ++ certStatusChoice ocspEnvFixed OCSP_CERT_STATUS_REVOKED 0 ++ post) ∧
    certStatusChoice ocspEnvFixed OCSP_CERT_STATUS_REVOKED 0
      = [0xA1, 0x0F] ++ ([0x18, 15] ++ ocspEnvFixed.egt 0) ∧
    ([0x18, 15] ++ ocspEnvFixed.egt 0).length = 17 ∧
    ([0x18, 15] ++ ocspEnvFixed.egt 0).length ≠ 0x0F :=
  ocsp_revoked_certstatus_length_mismatch ocspEnvFixed "AB12" 0 0 (by decide)

/-! ## OCSP status selection (C9, C10) -/

/-- C9: the certStatus of the OCSP responder matches the state of the certificate — an
unissued serial yields the status string "unknown" with the [2] choice in
the DER SingleResponse, an unexpired unrevoked certificate yields "good"
with the [0] choice, and a revoked certificate yields "revoked" with the [1]
choice. -/
theorem ocsp_status_matches_certificate_state (env : OcspEnv) (store : CertStore)
    (serialNumber : String) (now nextUpdateMs : Int) (entry : CertificateEntry)
    (hserial : serialNumber ≠ "") :
    (getCertificate store serialNumber = none →
      (checkCertificateOcsp env store serialNumber now).status = "unknown" ∧
      ocspStatus store serialNumber now = ("unknown", OCSP_CERT_STATUS_UNKNOWN) ∧
      (checkCertificateOcsp env store serialNumber now).ocspResponseDer
        = buildOcspResponseDer env serialNumber OCSP_CERT_STATUS_UNKNOWN now (now + dayMs) ∧
      ∃ pre post,
        buildSingleResponse env serialNumber OCSP_CERT_STATUS_UNKNOWN now nextUpdateMs
          = pre ++ certStatusChoice env OCSP_CERT_STATUS_UNKNOWN now ++ post ∧
        certStatusChoice env OCSP_CERT_STATUS_UNKNOWN now = [0x82, 0x00]) ∧
    (getCertificate store serialNumber = some entry → entry.revokedAt = none →
     ¬ entry.expiresAt < now →
      (checkCertificateOcsp env store serialNumber now).status = "good" ∧
      ocspStatus store serialNumber now = ("good", OCSP_CERT_STATUS_GOOD) ∧
      (checkCertificateOcsp env store serialNumber now).ocspResponseDer
        = buildOcspResponseDer env serialNumber OCSP_CERT_STATUS_GOOD now (now + dayMs) ∧
      ∃ pre post,
        buildSingleResponse env serialNumber OCSP_CERT_STATUS_GOOD now nextUpdateMs
          = pre ++ certStatusChoice env OCSP_CERT_STATUS_GOOD now ++ post ∧
        certStatusChoice env OCSP_CERT_STATUS_GOOD now = [0x80, 0x00]) ∧
    (getCertificate store serialNumber = some entry → entry.revokedAt.isSome →
      (checkCertificateOcsp env store serialNumber now).status = "revoked" ∧
      ocspStatus store serialNumber now = ("revoked", OCSP_CERT_STATUS_REVOKED) ∧
      (checkCertificateOcsp env store serialNumber now).ocspResponseDer
        = buildOcspResponseDer env serialNumber OCSP_CERT_STATUS_REVOKED now (now + dayMs) ∧
      ∃ pre post,
        buildSingleResponse env serialNumber OCSP_CERT_STATUS_REVOKED now nextUpdateMs
          = pre ++ certStatusChoice env OCSP_CERT_STATUS_REVOKED now ++ post ∧
        (certStatusChoice env OCSP_CERT_STATUS_REVOKED now).head? = some 0xA1) := by
  refine ⟨fun hnone => ?_, fun hsome hrev hexp => ?_, fun hsome hrev => ?_⟩
  · refine ⟨?_, ?_, ?_, ⟨_, _, buildSingleResponse_eq env serialNumber _ now nextUpdateMs, ?_⟩⟩
    · simp [checkCertificateOcsp, ocspStatus, hserial, hnone]
    · simp [ocspStatus, hserial, hnone]
    · simp [checkCertificateOcsp, ocspStatus, hserial, hnone]
    · simp [certStatusChoice, OCSP_CERT_STATUS_UNKNOWN, OCSP_CERT_STATUS_GOOD,
        OCSP_CERT_STATUS_REVOKED]
  · refine ⟨?_, ?_, ?_, ⟨_, _, buildSingleResponse_eq env serialNumber _ now nextUpdateMs, ?_⟩⟩
    · simp [checkCertificateOcsp, ocspStatus, hserial, hsome, hrev, hexp]
    · simp [ocspStatus, hserial, hsome, hrev, hexp]
    · simp [checkCertificateOcsp, ocspStatus, hserial, hsome, hrev, hexp]
    · simp [certStatusChoice, OCSP_CERT_STATUS_GOOD]
  · refine ⟨?_, ?_, ?_, ⟨_, _, buildSingleResponse_eq env serialNumber _ now nextUpdateMs, ?_⟩⟩
    · simp [checkCertificateOcsp, ocspStatus, hserial, hsome, hrev]
    · simp [ocspStatus, hserial, hsome, hrev]
    · simp [checkCertificateOcsp, ocspStatus, hserial, hsome, hrev]
    · simp [certStatusChoice, OCSP_CERT_STATUS_REVOKED, OCSP_CERT_STATUS_GOOD]

theorem ocsp_status_matches_certificate_state_witness :
    (getCertificate sampleStore "S1" = none →
      (checkCertificateOcsp ocspEnvFixed sampleStore "S1" 0).status = "unknown" ∧
      ocspStatus sampleStore "S1" 0 = ("unknown", OCSP_CERT_STATUS_UNKNOWN) ∧
      (checkCertificateOcsp ocspEnvFixed sampleStore "S1" 0).ocspResponseDer
        = buildOcspResponseDer ocspEnvFixed "S1" OCSP_CERT_STATUS_UNKNOWN 0 (0 + dayMs) ∧
      ∃ pre post,
        buildSingleResponse ocspEnvFixed "S1" OCSP_CERT_STATUS_UNKNOWN 0 99
          = pre ++ certStatusChoice ocspEnvFixed OCSP_CERT_STATUS_UNKNOWN 0 ++ post ∧
        certStatusChoice ocspEnvFixed OCSP_CERT_STATUS_UNKNOWN 0 = [0x82, 0x00]) ∧
    (getCertificate sampleStore "S1" = some sampleEntry → sampleEntry.revokedAt = none →
     ¬ sampleEntry.expiresAt < 0 →
      (checkCertificateOcsp ocspEnvFixed sampleStore "S1" 0).status = "good" ∧
      ocspStatus sampleStore "S1" 0 = ("good", OCSP_CERT_STATUS_GOOD) ∧
      (checkCertificateOcsp ocspEnvFixed sampleStore "S1" 0).ocspResponseDer
        = buildOcspResponseDer ocspEnvFixed "S1" OCSP_CERT_STATUS_GOOD 0 (0 + dayMs) ∧
      ∃ pre post,
        buildSingleResponse ocspEnvFixed "S1" OCSP_CERT_STATUS_GOOD 0 99
          = pre ++ certStatusChoice ocspEnvFixed OCSP_CERT_STATUS_GOOD 0 ++ post ∧
        certStatusChoice ocspEnvFixed OCSP_CERT_STATUS_GOOD 0 = [0x80, 0x00]) ∧
    (getCertificate sampleStore "S1" = some sampleEntry → sampleEntry.revokedAt.isSome →
      (checkCertificateOcsp ocspEnvFixed sampleStore "S1" 0).status = "revoked" ∧
      ocspStatus sampleStore "S1" 0 = ("revoked", OCSP_CERT_STATUS_REVOKED) ∧
      (checkCertificateOcsp ocspEnvFixed sampleStore "S1" 0).ocspResponseDer
        = buildOcspResponseDer ocspEnvFixed "S1" OCSP_CERT_STATUS_REVOKED 0 (0 + dayMs) ∧
      ∃ pre post,
        buildSingleResponse ocspEnvFixed "S1" OCSP_CERT_STATUS_REVOKED 0 99
          = pre ++ certStatusChoice ocspEnvFixed OCSP_CERT_STATUS_REVOKED 0 ++ post ∧
        (certStatusChoice ocspEnvFixed OCSP_CERT_STATUS_REVOKED 0).head? = some 0xA1) :=
  ocsp_status_matches_certificate_state ocspEnvFixed sampleStore "S1" 0 99 sampleEntry
    (by decide)

/-- C10: a certificate past its expiry and not revoked is reported by the
OCSP query as the string "expired" while the DER response encodes the
revoked certStatus choice (context-specific [1], tag byte 0xA1). -/
theorem ocsp_expired_string_expired_der_revoked (env : OcspEnv) (store : CertStore)
    (serialNumber : String) (now nextUpdateMs : Int) (entry : CertificateEntry)
    (hserial : serialNumber ≠ "")
    (hfound : getCertificate store serialNumber = some entry)
    (hnotrev : entry.revokedAt = none)
    (hexp : entry.expiresAt < now) :
    (checkCertificateOcsp env store serialNumber now).status = "expired" ∧
    ocspStatus store serialNumber now = ("expired", OCSP_CERT_STATUS_REVOKED) ∧
    (checkCertificateOcsp env store serialNumber now).ocspResponseDer
      = buildOcspResponseDer env serialNumber OCSP_CERT_STATUS_REVOKED now (now + dayMs) ∧
    ∃ pre post,
      buildSingleResponse env serialNumber OCSP_CERT_STATUS_REVOKED now nextUpdateMs
        = pre ++ certStatusChoice env OCSP_CERT_STATUS_REVOKED now ++ post ∧
      (certStatusChoice env OCSP_CERT_STATUS_REVOKED now).head? = some 0xA1 := by
  refine ⟨?_, ?_, ?_, ⟨_, _, buildSingleResponse_eq env serialNumber _ now nextUpdateMs, ?_⟩⟩
  · simp [checkCertificateOcsp, ocspStatus, hserial, hfound, hnotrev, hexp]
  · simp [ocspStatus, hserial, hfound, hnotrev, hexp]
  · simp [checkCertificateOcsp, ocspStatus, hserial, hfound, hnotrev, hexp]
  · simp [certStatusChoice, OCSP_CERT_STATUS_REVOKED, OCSP_CERT_STATUS_GOOD]

theorem ocsp_expired_string_expired_der_revoked_witness :
    (checkCertificateOcsp ocspEnvFixed expiredStore "S2" 2000).status = "expired" ∧
    ocspStatus expiredStore "S2" 2000 = ("expired", OCSP_CERT_STATUS_REVOKED) ∧
    (checkCertificateOcsp ocspEnvFixed expiredStore "S2" 2000).ocspResponseDer
      = buildOcspResponseDer ocspEnvFixed "S2" OCSP_CERT_STATUS_REVOKED 2000 (2000 + dayMs) ∧
    ∃ pre post,
      buildSingleResponse ocspEnvFixed "S2" OCSP_CERT_STATUS_REVOKED 2000 99
        = pre ++ certStatusChoice ocspEnvFixed OCSP_CERT_STATUS_REVOKED 2000 ++ post ∧
      (certStatusChoice ocspEnvFixed OCSP_CERT_STATUS_REVOKED 2000).head? = some 0xA1 :=
  ocsp_expired_string_expired_der_revoked ocspEnvFixed expiredStore "S2" 2000 99 expiredEntry
    (by decide) (by decide) (by decide) (by decide)

/-! ## Revocation (C5) -/

/-- C5: after a successful revoke, the status query for the serial reports
"revoked" at every later (or earlier) query time — expiry never overrides
revocation — and a second revoke of the same serial fails with the
already-revoked error and returns the store exactly unchanged (entry, CRL
and CRL timestamp included). -/
theorem revoke_then_status_revoked_double_revoke_fails
    (store : CertStore) (serialNumber : String) (reason : RevocationReason) (t : Int)
    (hserial : serialNumber ≠ "")
    (hok : (revokeCertificate store serialNumber reason t).1 = .ok ()) :
    (∀ now,
      (getCertificateStatus (revokeCertificate store serialNumber reason t).2
        serialNumber "" now).found = true ∧
      (getCertificateStatus (revokeCertificate store serialNumber reason t).2
        serialNumber "" now).status = "revoked") ∧
    (∀ reason2 t2,
      revokeCertificate (revokeCertificate store serialNumber reason t).2
          serialNumber reason2 t2
        = (.error "Certificate is already revoked",
           (revokeCertificate store serialNumber reason t).2)) := by
  match hl : alLookup store.certificates serialNumber with
  | none =>
    rw [revokeCertificate, hl] at hok
    simp at hok
  | some cert =>
    by_cases hs : cert.status = .revoked
    · rw [revokeCertificate, hl] at hok
      simp [hs] at hok
    · have hstore : revokeCertificate store serialNumber reason t
          = (.ok (),
             { store with
                 certificates := alInsert store.certificates serialNumber
                   { cert with status := .revoked, revokedAt := some t,
                               revocationReason := some reason }
                 crl := store.crl ++ [⟨serialNumber, t, reason⟩]
                 crlLastUpdate := t }) := by
        rw [revokeCertificate, hl]
        simp [hs]
      refine ⟨fun now => ?_, fun reason2 t2 => ?_⟩
      · rw [hstore]
        simp [getCertificateStatus, getCertificate, hserial, alLookup_insert_self]
      · rw [hstore]
        simp only [revokeCertificate, alLookup_insert_self]
        simp

theorem revoke_then_status_revoked_double_revoke_fails_witness :
    (∀ now,
      (getCertificateStatus (revokeCertificate sampleStore "S1" .keyCompromise 5).2
        "S1" "" now).found = true ∧
      (getCertificateStatus (revokeCertificate sampleStore "S1" .keyCompromise 5).2
        "S1" "" now).status = "revoked") ∧
    (∀ reason2 t2,
      revokeCertificate (revokeCertificate sampleStore "S1" .keyCompromise 5).2
          "S1" reason2 t2
        = (.error "Certificate is already revoked",
           (revokeCertificate sampleStore "S1" .keyCompromise 5).2)) :=
  revoke_then_status_revoked_double_revoke_fails sampleStore "S1" .keyCompromise 5
    (by decide) (by rfl)

/-! ## Certificate renewal (C2) -/

/-- C2: the renewal path can never resolve a previously issued certificate.
Issuance indexes the entry under the SHA-256 fingerprint of the certificate
DER, while renewal computes its lookup fingerprint as the SHA-256 of the
supplied PEM text; whenever those two digests differ (always, for a real
hash of distinct inputs) and the PEM digest is not otherwise in the index,
renewing with the PEM of the issued certificate itself fails with the not-found
error and leaves the store unchanged. -/
theorem renew_with_issued_pem_not_found
    (H : Bytes → String) (md5hex : String → String) (store0 : CertStore)
    (orgId commonName apiKeyHash : String) (gpuType : Option Nat) (validityDays : Nat)
    (serial : String) (now : Int) (certPem : String) (certDer : Bytes) (caCertPem : String)
    (apiKey : String) (validityDays2 : Nat) (serial2 : String) (now2 : Int)
    (certPem2 : String) (certDer2 : Bytes)
    (hpem : certPem ≠ "")
    (hfp : H (asciiBytes certPem) ≠ "")
    (hne : H (asciiBytes certPem) ≠ H certDer)
    (hmiss0 : alLookup store0.fingerprintIndex (H (asciiBytes certPem)) = none) :
    (issueCertificate H store0 orgId commonName apiKeyHash gpuType validityDays
        serial now certPem certDer caCertPem).1.certificatePem = certPem ∧
    renewCertificate H md5hex
        (issueCertificate H store0 orgId commonName apiKeyHash gpuType validityDays
          serial now certPem certDer caCertPem).2
        certPem apiKey validityDays2 serial2 now2 certPem2 certDer2 caCertPem
      = (failedCertificateResponse "Original certificate not found",
         (issueCertificate H store0 orgId commonName apiKeyHash gpuType validityDays
           serial now certPem certDer caCertPem).2) := by
  constructor
  · simp [issueCertificate]
  · have hidx : alLookup (issueCertificate H store0 orgId commonName apiKeyHash gpuType
        validityDays serial now certPem certDer caCertPem).2.fingerprintIndex
        (H (asciiBytes certPem)) = none := by
      simp only [issueCertificate]
      rw [alLookup_insert_of_ne _ _ _ _ (Ne.symm hne)]
      exact hmiss0
    rw [renewCertificate]
    simp [hpem, hfp, getCertificateByFingerprint, hidx]

theorem renew_with_issued_pem_not_found_witness :
    (issueCertificate (fun b => "h" ++ toString b.length) ⟨[], [], [], 0⟩ "acme" "agent-1"
        "akh" none 30 "SERIAL01" 0 "PEM!" [1, 2, 3] "CA").1.certificatePem = "PEM!" ∧
    renewCertificate (fun b => "h" ++ toString b.length) (fun s => s)
        (issueCertificate (fun b => "h" ++ toString b.length) ⟨[], [], [], 0⟩ "acme" "agent-1"
          "akh" none 30 "SERIAL01" 0 "PEM!" [1, 2, 3] "CA").2
        "PEM!" "key" 30 "SERIAL02" 7 "PEM2" [4, 5] "CA"
      = (failedCertificateResponse "Original certificate not found",
         (issueCertificate (fun b => "h" ++ toString b.length) ⟨[], [], [], 0⟩ "acme" "agent-1"
           "akh" none 30 "SERIAL01" 0 "PEM!" [1, 2, 3] "CA").2) :=
  renew_with_issued_pem_not_found (fun b => "h" ++ toString b.length) (fun s => s)
    ⟨[], [], [], 0⟩ "acme" "agent-1" "akh" none 30 "SERIAL01" 0 "PEM!" [1, 2, 3] "CA"
    "key" 30 "SERIAL02" 7 "PEM2" [4, 5]
    (by decide) (by decide) (by decide) (by decide)

/-! ## Status query by fingerprint (C7) -/

/-- C7: the status query cannot find a certificate by its fingerprint. The
query resolves its identifier only through the serial-keyed map, so for an
issued certificate whose fingerprint differs from every serial key, querying
with the fingerprint alone reports found = false and status "unknown", even
though the record exists and the fingerprint index resolves it. -/
theorem status_query_by_fingerprint_misses
    (H : Bytes → String) (store0 : CertStore)
    (orgId commonName apiKeyHash : String) (gpuType : Option Nat) (validityDays : Nat)
    (serial : String) (now qnow : Int) (certPem : String) (certDer : Bytes)
    (caCertPem : String)
    (hne : serial ≠ H certDer)
    (hmiss : alLookup store0.certificates (H certDer) = none) :
    (issueCertificate H store0 orgId commonName apiKeyHash gpuType validityDays
        serial now certPem certDer caCertPem).1.fingerprintSha256 = H certDer ∧
    getCertificateByFingerprint
        (issueCertificate H store0 orgId commonName apiKeyHash gpuType validityDays
          serial now certPem certDer caCertPem).2 (H certDer)
      = some (issueCertificate H store0 orgId commonName apiKeyHash gpuType validityDays
          serial now certPem certDer caCertPem).1 ∧
    (getCertificateStatus
        (issueCertificate H store0 orgId commonName apiKeyHash gpuType validityDays
          serial now certPem certDer caCertPem).2 "" (H certDer) qnow).found = false ∧
    (getCertificateStatus
        (issueCertificate H store0 orgId commonName apiKeyHash gpuType validityDays
          serial now certPem certDer caCertPem).2 "" (H certDer) qnow).status = "unknown" := by
  refine ⟨by simp [issueCertificate], ?_, ?_, ?_⟩
  · simp only [issueCertificate, getCertificateByFingerprint, getCertificate]
    rw [alLookup_insert_self]
    simp [alLookup_insert_self]
  · simp only [issueCertificate, getCertificateStatus, getCertificate]
    rw [if_neg (by simp), alLookup_insert_of_ne _ _ _ _ hne, hmiss]
  · simp only [issueCertificate, getCertificateStatus, getCertificate]
    rw [if_neg (by simp), alLookup_insert_of_ne _ _ _ _ hne, hmiss]

theorem status_query_by_fingerprint_misses_witness :
    (issueCertificate (fun b => "h" ++ toString b.length) ⟨[], [], [], 0⟩ "acme" "agent-1"
        "akh" none 30 "SERIAL01" 0 "PEM!" [1, 2, 3] "CA").1.fingerprintSha256
      = (fun (b : Bytes) => "h" ++ toString b.length) [1, 2, 3] ∧
    getCertificateByFingerprint
        (issueCertificate (fun b => "h" ++ toString b.length) ⟨[], [], [], 0⟩ "acme" "agent-1"
          "akh" none 30 "SERIAL01" 0 "PEM!" [1, 2, 3] "CA").2
        ((fun (b : Bytes) => "h" ++ toString b.length) [1, 2, 3])
      = some (issueCertificate (fun b => "h" ++ toString b.length) ⟨[], [], [], 0⟩ "acme"
          "agent-1" "akh" none 30 "SERIAL01" 0 "PEM!" [1, 2, 3] "CA").1 ∧
    (getCertificateStatus
        (issueCertificate (fun b => "h" ++ toString b.length) ⟨[], [], [], 0⟩ "acme" "agent-1"
          "akh" none 30 "SERIAL01" 0 "PEM!" [1, 2, 3] "CA").2
        "" ((fun (b : Bytes) => "h" ++ toString b.length) [1, 2, 3]) 500).found = false ∧
    (getCertificateStatus
        (issueCertificate (fun b => "h" ++ toString b.length) ⟨[], [], [], 0⟩ "acme" "agent-1"
          "akh" none 30 "SERIAL01" 0 "PEM!" [1, 2, 3] "CA").2
        "" ((fun (b : Bytes) => "h" ++ toString b.length) [1, 2, 3]) 500).status = "unknown" :=
  status_query_by_fingerprint_misses (fun b => "h" ++ toString b.length) ⟨[], [], [], 0⟩
    "acme" "agent-1" "akh" none 30 "SERIAL01" 0 500 "PEM!" [1, 2, 3] "CA"
    (by decide) (by decide)

/-! ## Rate limiting (C4) -/

/-- Inside one window (every call less than 60 seconds after the window
start), calls that keep the counter within the limit all succeed and only
increment the counter; the window start is never touched. -/
theorem validateSeq_within_window (hashKey : String → String) (apiKey : String)
    (e : ApiKeyEntry) (w : Int) (N : Nat)
    (hen : e.enabled = true) (hexp : e.expiresAt = none)
    (hlast : e.lastRequest = w) (hlim : e.rateLimit = N)
    (times : List Int) :
    ∀ (st : AuthState) (c : Nat),
      st.authEnabled = true →
      alLookup st.apiKeys (hashKey apiKey) = some { e with requestCount := c } →
      (∀ t ∈ times, numSeconds (t - w) < 60) →
      c + times.length ≤ N →
      (validateSeq hashKey st apiKey times).1 = List.replicate times.length true ∧
      (validateSeq hashKey st apiKey times).2.authEnabled = true ∧
      alLookup (validateSeq hashKey st apiKey times).2.apiKeys (hashKey apiKey)
        = some { e with requestCount := c + times.length } := by
  induction times with
  | nil =>
    intro st c hauth hlook hwin hfit
    exact ⟨rfl, hauth, hlook⟩
  | cons t ts ih =>
    intro st c hauth hlook hwin hfit
    have hwt : ¬ (60 : Int) ≤ numSeconds (t - w) := by
      have := hwin t (by simp)
      omega
    have hfit' : c + ts.length + 1 ≤ N := by
      simp only [List.length_cons] at hfit
      omega
    have hrc : ¬ ((0 : Nat) < N ∧ N ≤ c) := by omega
    have hstep : validateKey hashKey st apiKey t
        = (.ok { e with requestCount := c + 1 },
           { st with apiKeys := (alInsert st.apiKeys (hashKey apiKey)
               ({ e with requestCount := c + 1 })) }) := by
      rw [validateKey]
      simp [hauth, hlook, hen, hexp, hlast, hlim, hwt, hrc]
    have hrest := ih { st with apiKeys := (alInsert st.apiKeys (hashKey apiKey)
        ({ e with requestCount := c + 1 })) } (c + 1) hauth
      (alLookup_insert_self ..)
      (fun t' ht' => hwin t' (by simp [ht']))
      (by omega)
    obtain ⟨h1, h2, h3⟩ := hrest
    refine ⟨?_, ?_, ?_⟩
    · simp [validateSeq, hstep, h1, validateOk, List.replicate_succ]
    · simpa [validateSeq, hstep] using h2
    · have harith : c + 1 + ts.length = c + (t :: ts).length := by
        simp only [List.length_cons]
        omega
      rw [← harith]
      simpa [validateSeq, hstep] using h3

/-- A successful `validate_key` call against an entry whose tier rate limit
is zero: the rate-limit check always passes. -/
theorem validateKey_zero_limit (hashKey : String → String) (st : AuthState)
    (apiKey : String) (now : Int) (e2 : ApiKeyEntry)
    (h1 : st.authEnabled = true)
    (h2 : alLookup st.apiKeys (hashKey apiKey) = some e2)
    (h3 : e2.enabled = true) (h4 : e2.expiresAt = none) (h5 : e2.rateLimit = 0) :
    validateOk (validateKey hashKey st apiKey now).1 = true := by
  rw [validateKey]
  simp only [h1, h2, h3, h4, h5]
  split_ifs <;> simp_all [validateOk]

/-- C4: with a registered key at a tier whose rate limit is N > 0 and a
fresh window starting at w, the first N validate calls inside the window
succeed, the (N+1)-th call inside the window fails ResourceExhausted and
leaves the counter at N, and the next call at least 60 seconds after the
window start resets the counter exactly once (to zero, then the increment
makes it one) and succeeds; a rate limit of zero always passes the
rate-limit check. -/
theorem rate_limit_window (hashKey : String → String) (st : AuthState) (apiKey : String)
    (e : ApiKeyEntry) (w : Int) (N : Nat) (times : List Int) (tBlock tReset : Int)
    (hauth : st.authEnabled = true)
    (hlook : alLookup st.apiKeys (hashKey apiKey) = some e)
    (hen : e.enabled = true) (hexp : e.expiresAt = none)
    (hcount : e.requestCount = 0) (hlast : e.lastRequest = w)
    (hlim : e.rateLimit = N) (hN : 0 < N)
    (hlen : times.length = N)
    (hwin : ∀ t ∈ times, numSeconds (t - w) < 60)
    (hblock : numSeconds (tBlock - w) < 60)
    (hreset : (60 : Int) ≤ numSeconds (tReset - w)) :
    (validateSeq hashKey st apiKey times).1 = List.replicate N true ∧
    (validateKey hashKey (validateSeq hashKey st apiKey times).2 apiKey tBlock).1
      = .error ⟨.resourceExhausted, rateLimitMessage N⟩ ∧
    alLookup (validateKey hashKey (validateSeq hashKey st apiKey times).2
        apiKey tBlock).2.apiKeys (hashKey apiKey) = some { e with requestCount := N } ∧
    (validateKey hashKey (validateSeq hashKey st apiKey times).2 apiKey tReset).1
      = .ok { e with requestCount := 1, lastRequest := tReset } ∧
    alLookup (validateKey hashKey (validateSeq hashKey st apiKey times).2
        apiKey tReset).2.apiKeys (hashKey apiKey)
      = some { e with requestCount := 1, lastRequest := tReset } ∧
    (∀ (st2 : AuthState) (e2 : ApiKeyEntry) (t2 : Int),
      st2.authEnabled = true →
      alLookup st2.apiKeys (hashKey apiKey) = some e2 →
      e2.enabled = true → e2.expiresAt = none → e2.rateLimit = 0 →
      validateOk (validateKey hashKey st2 apiKey t2).1 = true) := by
  have hlook0 : alLookup st.apiKeys (hashKey apiKey) = some { e with requestCount := 0 } := by
    rw [← hcount]
    exact hlook
  have hseq := validateSeq_within_window hashKey apiKey e w N hen hexp hlast hlim times
    st 0 hauth hlook0 hwin (by omega)
  obtain ⟨h1, h2, h3⟩ := hseq
  rw [hlen] at h1 h3
  have hnwB : ¬ (60 : Int) ≤ numSeconds (tBlock - w) := by omega
  have hrcB : (0 : Nat) < N ∧ N ≤ N := ⟨hN, le_refl N⟩
  have hblockEq : validateKey hashKey (validateSeq hashKey st apiKey times).2 apiKey tBlock
      = (.error ⟨.resourceExhausted, rateLimitMessage N⟩,
         { (validateSeq hashKey st apiKey times).2 with
             apiKeys := (alInsert (validateSeq hashKey st apiKey times).2.apiKeys
               (hashKey apiKey) ({ e with requestCount := N })) }) := by
    rw [validateKey]
    simp [h2, h3, hen, hexp, hlast, hlim, hnwB, hrcB]
  have hresetEq : validateKey hashKey (validateSeq hashKey st apiKey times).2 apiKey tReset
      = (.ok { e with requestCount := 1, lastRequest := tReset },
         { (validateSeq hashKey st apiKey times).2 with
             apiKeys := (alInsert (validateSeq hashKey st apiKey times).2.apiKeys
               (hashKey apiKey) ({ e with requestCount := 1, lastRequest := tReset })) }) := by
    rw [validateKey]
    simp [h2, h3, hen, hexp, hlast, hlim, hreset, hN.ne.symm]
  refine ⟨h1, ?_, ?_, ?_, ?_, ?_⟩
  · rw [hblockEq]
  · rw [hblockEq]
    exact alLookup_insert_self ..
  · rw [hresetEq]
  · rw [hresetEq]
    exact alLookup_insert_self ..
  · intro st2 e2 t2 g1 g2 g3 g4 g5
    exact validateKey_zero_limit hashKey st2 apiKey t2 e2 g1 g2 g3 g4 g5

theorem rate_limit_window_witness :
    (validateSeq (fun s => s) authStateW "k" [0, 10000]).1 = List.replicate 2 true ∧
    (validateKey (fun s => s) (validateSeq (fun s => s) authStateW "k" [0, 10000]).2
        "k" 20000).1 = .error ⟨.resourceExhausted, rateLimitMessage 2⟩ ∧
    alLookup (validateKey (fun s => s) (validateSeq (fun s => s) authStateW "k" [0, 10000]).2
        "k" 20000).2.apiKeys ((fun (s : String) => s) "k")
      = some { entryW with requestCount := 2 } ∧
    (validateKey (fun s => s) (validateSeq (fun s => s) authStateW "k" [0, 10000]).2
        "k" 60000).1 = .ok { entryW with requestCount := 1, lastRequest := 60000 } ∧
    alLookup (validateKey (fun s => s) (validateSeq (fun s => s) authStateW "k" [0, 10000]).2
        "k" 60000).2.apiKeys ((fun (s : String) => s) "k")
      = some { entryW with requestCount := 1, lastRequest := 60000 } ∧
    (∀ (st2 : AuthState) (e2 : ApiKeyEntry) (t2 : Int),
      st2.authEnabled = true →
      alLookup st2.apiKeys ((fun (s : String) => s) "k") = some e2 →
      e2.enabled = true → e2.expiresAt = none → e2.rateLimit = 0 →
      validateOk (validateKey (fun s => s) st2 "k" t2).1 = true) :=
  rate_limit_window (fun s => s) authStateW "k" entryW 0 2 [0, 10000] 20000 60000
    (by decide) (by decide) (by decide) (by decide) (by decide) (by decide) (by decide)
    (by decide) (by decide)
    (by
      intro t ht
      simp only [List.mem_cons, List.not_mem_nil, or_false] at ht
      rcases ht with rfl | rfl <;> decide)
    (by decide) (by decide)

/-! ## Tier gating (C3) -/

theorem tierLevel_le_four (t : String) : tierLevel t ≤ 4 := by
  unfold tierLevel
  split_ifs <;> omega

/-- C3 counterexample: a key registered at tier "pro" is rejected by the
tier-gated calibration operations for a requested tier of "enterprise" with
Unauthenticated ("Invalid subscription tier in API key"), not
PermissionDenied — the gate parses the tier out of the key string and
recognizes PROFESSIONAL but not PRO, and never consults the registration
record. -/
theorem pro_key_enterprise_gate_unauthenticated :
    ((alLookup (registerKey (fun s => s) ⟨[], true⟩ "CYAN-FLAME-PRO-abc123" "pro"
        "org1" 0).apiKeys "CYAN-FLAME-PRO-abc123").map ApiKeyEntry.tier = some "pro") ∧
    validateApiKeyAndTier "CYAN-FLAME-PRO-abc123" "enterprise"
      = .error ⟨.unauthenticated, "Invalid subscription tier in API key"⟩ := by
  constructor
  · decide
  · decide

/-- C3 amended: the gate reads the tier from the third dash-separated
component of the key string itself. A key whose embedded tier uppercases to
PROFESSIONAL is rejected with PermissionDenied for an enterprise-gated
operation, and a key whose embedded tier uppercases to ENTERPRISE is
accepted for every requested tier (all recognized tiers sit at level at
most four). -/
theorem tier_gating_parsed_from_key (apiKey tier : String)
    (hne : apiKey ≠ "")
    (hpre : ("CYAN-FLAME-".data).isPrefixOf apiKey.data = true)
    (hlen : 4 ≤ (rustSplit apiKey (Char.ofNat 45)).length) :
    (rustToUppercase ((rustSplit apiKey (Char.ofNat 45)).getD 2 "") = "PROFESSIONAL" →
     rustToUppercase tier = "ENTERPRISE" →
      ∃ msg, validateApiKeyAndTier apiKey tier = .error ⟨.permissionDenied, msg⟩) ∧
    (rustToUppercase ((rustSplit apiKey (Char.ofNat 45)).getD 2 "") = "ENTERPRISE" →
      validateApiKeyAndTier apiKey tier = .ok ()) := by
  have h4 : ¬ ((rustSplit apiKey (Char.ofNat 45)).length < 4) := by omega
  constructor
  · intro hkey htier
    simp only [List.getD_eq_getElem?_getD] at hkey
    refine ⟨"API key tier " ++ apos ++ "PROFESSIONAL" ++ apos ++ " does not have access to "
      ++ apos ++ "ENTERPRISE" ++ apos ++ " features", ?_⟩
    rw [validateApiKeyAndTier]
    simp [hne, hpre, h4, hkey, htier, tierLevel]
  · intro hkey
    simp only [List.getD_eq_getElem?_getD] at hkey
    rw [validateApiKeyAndTier]
    have hreq := tierLevel_le_four (rustToUppercase tier)
    rw [tierLevel] at hreq
    simp [hne, hpre, h4, hkey, tierLevel]
    omega

theorem tier_gating_parsed_from_key_witness :
    (rustToUppercase ((rustSplit "CYAN-FLAME-PROFESSIONAL-x7" (Char.ofNat 45)).getD 2 "")
        = "PROFESSIONAL" →
     rustToUppercase "enterprise" = "ENTERPRISE" →
      ∃ msg, validateApiKeyAndTier "CYAN-FLAME-PROFESSIONAL-x7" "enterprise"
        = .error ⟨.permissionDenied, msg⟩) ∧
    (rustToUppercase ((rustSplit "CYAN-FLAME-PROFESSIONAL-x7" (Char.ofNat 45)).getD 2 "")
        = "ENTERPRISE" →
      validateApiKeyAndTier "CYAN-FLAME-PROFESSIONAL-x7" "enterprise" = .ok ()) :=
  tier_gating_parsed_from_key "CYAN-FLAME-PROFESSIONAL-x7" "enterprise"
    (by decide) (by decide) (by decide)

/-! ## Rotation and broadcast (C6, C8) -/

theorem iterate_rotate_version (gen : Nat → CalibrationMatrixMeta) (n : Nat) :
    ((rotateStep gen)^[n] (initialCalibrationState gen)).version = n + 1 := by
  induction n with
  | zero => rfl
  | succ n ih =>
    rw [Function.iterate_succ_apply']
    simp [rotateStep, ih]

theorem iterate_rotate_log (gen : Nat → CalibrationMatrixMeta) (n : Nat) :
    ((rotateStep gen)^[n] (initialCalibrationState gen)).broadcastLog
      = (List.range n).map (fun i => i + 2) := by
  induction n with
  | zero => rfl
  | succ n ih =>
    rw [Function.iterate_succ_apply']
    simp [rotateStep, ih, iterate_rotate_version, List.range_succ]

/-- The published-version log splits at any subscription point `K ≤ n`. -/
theorem iterate_rotate_log_split (gen : Nat → CalibrationMatrixMeta) (n K : Nat)
    (hK : K ≤ n) :
    ((rotateStep gen)^[n] (initialCalibrationState gen)).broadcastLog
      = (List.range K).map (fun i => i + 2)
        ++ (List.range (n - K)).map (fun i => K + i + 2) := by
  rw [iterate_rotate_log]
  have hn : List.range n = List.range K ++ (List.range (n - K)).map (fun x => K + x) := by
    conv_lhs => rw [show n = K + (n - K) by omega]
    exact List.range_add K (n - K)
  rw [hn, List.map_append, List.map_map]
  rfl

/-- C6: the rotation task increments the version by exactly one per tick
starting from 1; the ordered log of published versions is 2, 3, ..., n+1
with no gaps or repeats; and a subscriber that joins after K rotations
receives exactly the versions published afterwards — every version it
receives is strictly greater than every one published before it joined, so
none of the K missed artifacts is ever replayed. -/
theorem rotation_versions_consecutive_no_replay (gen : Nat → CalibrationMatrixMeta)
    (n K : Nat) (hK : K ≤ n) :
    (initialCalibrationState gen).version = 1 ∧
    (∀ m : Nat, ((rotateStep gen)^[m + 1] (initialCalibrationState gen)).version
        = ((rotateStep gen)^[m] (initialCalibrationState gen)).version + 1) ∧
    ((rotateStep gen)^[n] (initialCalibrationState gen)).broadcastLog
      = (List.range n).map (fun i => i + 2) ∧
    (∀ i : Nat, i + 1 < n →
      ((rotateStep gen)^[n] (initialCalibrationState gen)).broadcastLog.getD (i + 1) 0
        = ((rotateStep gen)^[n] (initialCalibrationState gen)).broadcastLog.getD i 0 + 1) ∧
    subscriberReceives ((rotateStep gen)^[n] (initialCalibrationState gen)) K
      = (List.range (n - K)).map (fun i => K + i + 2) ∧
    (∀ v ∈ subscriberReceives ((rotateStep gen)^[n] (initialCalibrationState gen)) K,
      ∀ w ∈ ((rotateStep gen)^[n] (initialCalibrationState gen)).broadcastLog.take K,
        w < v) := by
  have hdrop : subscriberReceives ((rotateStep gen)^[n] (initialCalibrationState gen)) K
      = (List.range (n - K)).map (fun i => K + i + 2) := by
    rw [subscriberReceives, iterate_rotate_log_split gen n K hK,
      List.drop_left' (by simp)]
  have htake : ((rotateStep gen)^[n] (initialCalibrationState gen)).broadcastLog.take K
      = (List.range K).map (fun i => i + 2) := by
    rw [iterate_rotate_log_split gen n K hK, List.take_left' (by simp)]
  refine ⟨rfl, ?_, iterate_rotate_log gen n, ?_, hdrop, ?_⟩
  · intro m
    rw [Function.iterate_succ_apply']
    simp [rotateStep]
  · intro i hi
    rw [iterate_rotate_log]
    have h1 : i < n := by omega
    simp [List.getD_eq_getElem?_getD, List.getElem?_map, List.getElem?_range, hi, h1]
  · intro v hv w hw
    rw [hdrop] at hv
    rw [htake] at hw
    simp only [List.mem_map, List.mem_range] at hv hw
    obtain ⟨i, hi, rfl⟩ := hv
    obtain ⟨j, hj, rfl⟩ := hw
    omega

theorem rotation_versions_consecutive_no_replay_witness :
    (initialCalibrationState genW).version = 1 ∧
    (∀ m : Nat, ((rotateStep genW)^[m + 1] (initialCalibrationState genW)).version
        = ((rotateStep genW)^[m] (initialCalibrationState genW)).version + 1) ∧
    ((rotateStep genW)^[3] (initialCalibrationState genW)).broadcastLog
      = (List.range 3).map (fun i => i + 2) ∧
    (∀ i : Nat, i + 1 < 3 →
      ((rotateStep genW)^[3] (initialCalibrationState genW)).broadcastLog.getD (i + 1) 0
        = ((rotateStep genW)^[3] (initialCalibrationState genW)).broadcastLog.getD i 0 + 1) ∧
    subscriberReceives ((rotateStep genW)^[3] (initialCalibrationState genW)) 2
      = (List.range (3 - 2)).map (fun i => 2 + i + 2) ∧
    (∀ v ∈ subscriberReceives ((rotateStep genW)^[3] (initialCalibrationState genW)) 2,
      ∀ w ∈ ((rotateStep genW)^[3] (initialCalibrationState genW)).broadcastLog.take 2,
        w < v) :=
  rotation_versions_consecutive_no_replay genW 3 2 (by decide)

/-- C8 counterexample: a get-current-artifact request served at time 2000
against a state whose artifact expired at 1000 returns that expired
artifact, and the state after the call is identical — no synchronous
regeneration happens, so the returned artifact is past its expiry. -/
theorem get_matrix_past_expiry_counterexample :
    (getCalibrationMatrix calStateW).1.expiresAtMs < 2000 ∧
    (getCalibrationMatrix calStateW).1 = expiredMatrixW ∧
    (getCalibrationMatrix calStateW).2 = calStateW := by
  refine ⟨?_, ?_, ?_⟩ <;> decide

/-- C8 amended: the get-current-artifact operation returns the current
artifact unconditionally and changes nothing; it never consults expiry and
never regenerates, so with no rotation the returned artifact can be past
its expiry. -/
theorem get_matrix_returns_current_unchanged (st : CalibrationState) :
    getCalibrationMatrix st = (st.currentMatrix, st) := rfl

end CyanFlame
